import Mathlib

/-
Verification development for the demo Flask web application
(src/apps/web-app/app.py).  The application's data model, handlers and
request lifecycle are shallowly embedded as executable Lean definitions,
translated line-by-line from the Python source, and the specification's
claims are settled as theorems about those definitions.

Modelling conventions:
  * wall-clock instants (`time.time()`) are rationals (ℚ);
  * environment variables are a lookup function `String → Option String`;
  * response bodies are a small JSON-like value type; timestamps inside
    bodies are carried as the rational instant they would be formatted from;
  * Python `int(s)` string parsing is `parsePyInt` (sign, digits, optional
    underscore digit grouping, surrounding whitespace), returning `none`
    where CPython raises `ValueError`;
  * Python `int(x)` on a float truncates toward zero: `pyInt`;
  * `sys.exit(1)` (a `SystemExit`, uncaught by Flask's `Exception` handler)
    is the `Outcome.processExit` constructor: the process dies, no response
    is produced, and the `after_request` hook does not run;
  * an ordinary uncaught exception in a handler (e.g. `ValueError` from
    `time.sleep` on a negative argument) is `Outcome.exception`: Flask
    converts it to a 500 response and the `after_request` hook still runs;
  * each Prometheus counter increment is one atomic step, matching the
    prometheus_client thread-safety contract; a labelled counter is
    represented by the multiset (list) of label values it was incremented
    with, so a label's value is a `List.count` and the sum over all label
    combinations is a `List.length`.
-/

namespace WebApp

/-- Environment variables at some moment: name to value. -/
def EnvF : Type := String → Option String

/-- Python `os.getenv(key, default)`. -/
def getenv (e : EnvF) (k d : String) : String := (e k).getD d

/-- Python `str.strip()` on the character list of a string. -/
def pyStrip (cs : List Char) : List Char :=
  ((cs.dropWhile Char.isWhitespace).reverse.dropWhile Char.isWhitespace).reverse

/-- Digit-sequence part of CPython `int(str)`: a nonempty run of ASCII digits
in which a single underscore may separate two digits (`1_0` parses, `_1`,
`1_` and `1__0` do not).  Accumulator-style. -/
def pyDigits : Nat → List Char → Option Nat
  | acc, [] => some acc
  | acc, '_' :: c :: rest =>
      if c.isDigit then pyDigits (acc * 10 + (c.toNat - 48)) rest else none
  | _, ['_'] => none
  | acc, c :: rest =>
      if c.isDigit then pyDigits (acc * 10 + (c.toNat - 48)) rest else none

/-- Unsigned integer literal: at least one leading digit, then `pyDigits`. -/
def pyUnsigned : List Char → Option Nat
  | [] => none
  | c :: rest => if c.isDigit then pyDigits (c.toNat - 48) rest else none

/-- CPython `int(s)` on a decimal string: strip whitespace, optional sign,
digits.  `none` where CPython raises `ValueError`. -/
def parsePyInt (s : String) : Option Int :=
  match pyStrip s.toList with
  | '+' :: rest => (pyUnsigned rest).map Int.ofNat
  | '-' :: rest => (pyUnsigned rest).map (fun n => -(n : Int))
  | cs => (pyUnsigned cs).map Int.ofNat

/-- Werkzeug `request.args.get(key, default, type=int)`: the first value
bound to `key`; if the key is absent or `int()` raises on its value, the
default is returned (app.py lines 164, 179-180). -/
def argsGet (args : List (String × String)) (k : String) (d : Int) : Int :=
  match args.lookup k with
  | none => d
  | some v => (parsePyInt v).getD d

/-- Python `int(x)` on a real value: truncation toward zero. -/
def pyInt (q : ℚ) : Int := if 0 ≤ q then ⌊q⌋ else -⌊-q⌋

/-- Module-load snapshot (app.py lines 22-33): `app.start_time`,
`APP_VERSION`, `APP_NAME`.  `ENVIRONMENT` is deliberately NOT a field:
the source reads it with `os.getenv` inside the handlers, at request time. -/
structure Startup where
  startTime : ℚ
  appVersion : String
  appName : String

/-- The module-level initialisation performed at process start:
`app.start_time = time.time()`, `APP_VERSION = os.getenv(...)`,
`APP_NAME = os.getenv(...)` (app.py lines 23, 32-33). -/
def Startup.ofEnv (e : EnvF) (t : ℚ) : Startup :=
  { startTime := t
    appVersion := getenv e "APP_VERSION" "1.0.0"
    appName := getenv e "APP_NAME" "infrastructure-learning-app" }

/-- Uptime as computed by the source on every request:
`int(time.time() - app.start_time)` (app.py lines 104, 114, 126). -/
def uptimeSeconds (su : Startup) (now : ℚ) : Int := pyInt (now - su.startTime)

/-- The view-model the `home` handler passes to `render_template_string`
(app.py lines 99-105): the five template bindings. -/
structure HomeView where
  app_name : String
  version : String
  environment : String
  current_time : ℚ
  uptime : Int
deriving DecidableEq, Repr

/-- Process-wide Prometheus registry state (app.py lines 26-29).
Labelled counters are the list of label tuples they were incremented with;
the histogram is its list of observations. -/
structure Metrics where
  httpRequests : List (String × String × Nat)
  durations : List ℚ
  activeUsers : Nat
  businessEvents : List String
deriving DecidableEq, Repr

/-- Fresh registry at process start: every counter at zero. -/
def Metrics.init : Metrics :=
  { httpRequests := [], durations := [], activeUsers := 0, businessEvents := [] }

/-- Value of `http_requests_total` summed over all label combinations. -/
def Metrics.httpTotal (m : Metrics) : Nat := m.httpRequests.length

/-- Value of `business_events_total{event_type=e}`. -/
def Metrics.businessCount (m : Metrics) (e : String) : Nat :=
  m.businessEvents.count e

/-- Response bodies.  `JVal.q` carries a wall-clock instant that the source
would format (`isoformat`/`strftime`); `page` is the HTML page rendered by
the `home` template, represented by its view-model; `expo` is the
Prometheus exposition text, represented by the registry snapshot
`generate_latest()` serialises. -/
inductive JVal
  | s (v : String)
  | i (v : Int)
  | q (v : ℚ)
  | obj (o : List (String × JVal))
  | page (v : HomeView)
  | expo (m : Metrics)

/-- A JSON object: ordered key/value pairs, as built by `jsonify`. -/
def JObj : Type := List (String × JVal)

/-- Keys of a JSON object, in order. -/
def jsonKeys (o : JObj) : List String := o.map Prod.fst

/-- Log lines the application emits. -/
inductive LogLine
  | infoLine (msg : String)
  | errorLine (msg : String)
  | requestLine (method path : String) (status : Nat) (duration : ℚ)
deriving DecidableEq, Repr

/-- Process-wide mutable state threaded through request handling. -/
structure AppState where
  metrics : Metrics
  logs : List LogLine
deriving DecidableEq, Repr

/-- State of a freshly started process. -/
def AppState.init : AppState := { metrics := Metrics.init, logs := [] }

/-- The eight registered routes, named by their Flask endpoint
(the Python function name). -/
inductive Route
  | home
  | health_check
  | app_info
  | metricsRoute
  | system_info
  | crash_app
  | slow_endpoint
  | cpu_load
deriving DecidableEq, Repr

/-- Flask's `request.endpoint or 'unknown'` (app.py line 46): the matched
endpoint name, or `"unknown"` when no route matched. -/
def endpointName : Option Route → String
  | some .home => "home"
  | some .health_check => "health_check"
  | some .app_info => "app_info"
  | some .metricsRoute => "metrics"
  | some .system_info => "system_info"
  | some .crash_app => "crash_app"
  | some .slow_endpoint => "slow_endpoint"
  | some .cpu_load => "cpu_load"
  | none => "unknown"

/-- Ambient interpreter/host facts sampled by handlers:
`os.sys.version` and the psutil readings used by `/system`. -/
structure SysInfo where
  pythonVersion : String
  cpuPercent : ℚ
  memTotal : Nat
  memAvailable : Nat
  memPercent : ℚ
  diskTotal : Nat
  diskFree : Nat
  diskPercent : ℚ

/-- An inbound HTTP request together with the ambient facts at the moment
it is handled: the wall clock (`time.time()` as the handler starts, which
`before_request` stores as `request.start_time`), the process environment,
and interpreter/host info. -/
structure Request where
  method : String
  path : String
  route : Option Route
  args : List (String × String)
  now : ℚ
  env : EnvF
  sys : SysInfo

/-- What a handler invocation comes to (before the `after_request` hook). -/
inductive Outcome
  | response (status : Nat) (body : JVal)
  | exception (msg : String)
  | processExit (code : Int)

/-- Result of running one handler: the mutated process state, the outcome,
the wall-clock instant the handler finishes (response-ready time), and the
finish instants of any worker threads it spawned and joined. -/
structure HResult where
  state : AppState
  outcome : Outcome
  finish : ℚ
  workers : List ℚ

/-- The bindings `home` passes to `render_template_string`
(app.py lines 99-105): app name and version from the module-load snapshot,
`environment` from `os.getenv` at request time, the current clock, and the
truncated uptime. -/
def homeView (su : Startup) (req : Request) : HomeView :=
  { app_name := su.appName
    version := su.appVersion
    environment := getenv req.env "ENVIRONMENT" "development"
    current_time := req.now
    uptime := pyInt (req.now - su.startTime) }

/-- Handler `home` for `GET /` (app.py lines 54-105): increments
`active_users_total` and `business_events_total{page_view}`, then renders
the HTML template over the view-model. -/
def home (su : Startup) (req : Request) (s : AppState) : HResult :=
  { state :=
      { s with metrics :=
          { s.metrics with
              activeUsers := s.metrics.activeUsers + 1
              businessEvents := s.metrics.businessEvents ++ ["page_view"] } }
    outcome := .response 200 (.page (homeView su req))
    finish := req.now
    workers := [] }

/-- Body returned by `health_check` for `GET /health`
(app.py lines 110-115). -/
def healthBody (su : Startup) (req : Request) : JObj :=
  [("status", .s "healthy"),
   ("timestamp", .q req.now),
   ("version", .s su.appVersion),
   ("uptime_seconds", .i (uptimeSeconds su req.now))]

def health_check (su : Startup) (req : Request) (s : AppState) : HResult :=
  { state := s
    outcome := .response 200 (.obj (healthBody su req))
    finish := req.now
    workers := [] }

/-- Body returned by `app_info` for `GET /info` (app.py lines 120-127).
Note the fourth key is `python_version` (value `os.sys.version`) and that
`environment` is `os.getenv('ENVIRONMENT', 'development')` evaluated at
request time. -/
def infoBody (su : Startup) (req : Request) : JObj :=
  [("name", .s su.appName),
   ("version", .s su.appVersion),
   ("environment", .s (getenv req.env "ENVIRONMENT" "development")),
   ("python_version", .s req.sys.pythonVersion),
   ("start_time", .q su.startTime),
   ("uptime_seconds", .i (uptimeSeconds su req.now))]

def app_info (su : Startup) (req : Request) (s : AppState) : HResult :=
  { state := s
    outcome := .response 200 (.obj (infoBody su req))
    finish := req.now
    workers := [] }

/-- Handler `metrics` for `GET /metrics` (app.py lines 129-132):
`generate_latest()` serialises the current registry; the exposition text is
represented by the registry snapshot it serialises. -/
def metricsEndpoint (su : Startup) (req : Request) (s : AppState) : HResult :=
  { state := s
    outcome := .response 200 (.expo s.metrics)
    finish := req.now
    workers := [] }

/-- Handler `system_info` for `GET /system` (app.py lines 134-150):
psutil readings; `cpu_percent(interval=1)` blocks for a 1-second sampling
window, so the handler finishes one second after it starts. -/
def system_info (su : Startup) (req : Request) (s : AppState) : HResult :=
  { state := s
    outcome := .response 200 (.obj
      [("cpu_percent", .q req.sys.cpuPercent),
       ("memory", .obj
          [("total", .i (Int.ofNat req.sys.memTotal)),
           ("available", .i (Int.ofNat req.sys.memAvailable)),
           ("percent", .q req.sys.memPercent)]),
       ("disk", .obj
          [("total", .i (Int.ofNat req.sys.diskTotal)),
           ("free", .i (Int.ofNat req.sys.diskFree)),
           ("percent", .q req.sys.diskPercent)]),
       ("timestamp", .q (req.now + 1))])
    finish := req.now + 1
    workers := [] }

/-- Handler `crash_app` for `GET /crash` (app.py lines 152-158): logs an
error, increments `business_events_total{crash_simulation}`, then
`sys.exit(1)`.  `SystemExit` is a `BaseException`, not an `Exception`, so
Flask's dispatcher does not catch it: no response object is ever built. -/
def crash_app (su : Startup) (req : Request) (s : AppState) : HResult :=
  { state :=
      { metrics :=
          { s.metrics with
              businessEvents := s.metrics.businessEvents ++ ["crash_simulation"] }
        logs := s.logs ++ [.errorLine "Application crash simulation triggered!"] }
    outcome := .processExit 1
    finish := req.now
    workers := [] }

/-- Python `time.sleep(d)`: raises `ValueError` for a negative duration,
otherwise returns after `d` seconds. -/
def pySleep (d : Int) : Except String Unit :=
  if d < 0 then .error "sleep length must be non-negative" else .ok ()

/-- Handler `slow_endpoint` for `GET /slow` (app.py lines 160-171):
`delay = request.args.get('delay', 5, type=int)`, log, increment
`business_events_total{slow_request}`, `time.sleep(delay)`, then the JSON
body.  The counter increment happens before the sleep, so a `ValueError`
from a negative delay leaves the increment in place. -/
def slow_endpoint (su : Startup) (req : Request) (s : AppState) : HResult :=
  let delay := argsGet req.args "delay" 5
  let s1 : AppState :=
    { metrics :=
        { s.metrics with
            businessEvents := s.metrics.businessEvents ++ ["slow_request"] }
      logs := s.logs ++
        [.infoLine ("Simulating slow response with " ++ toString delay ++ "s delay")] }
  match pySleep delay with
  | .error e => { state := s1, outcome := .exception e, finish := req.now, workers := [] }
  | .ok _ =>
      { state := s1
        outcome := .response 200 (.obj
          [("message", .s ("This response was delayed by " ++ toString delay ++ " seconds")),
           ("timestamp", .q (req.now + (delay : ℚ)))])
        finish := req.now + (delay : ℚ)
        workers := [] }

/-- Finish instant of one `cpu_intensive_task` worker (app.py lines
185-189): it busy-loops while `time.time() < end_time` with
`end_time = time.time() + duration`, so it finishes as soon as the clock
reaches `start + duration` (immediately when `duration ≤ 0`). -/
def workerFinish (start : ℚ) (duration : Int) : ℚ :=
  max start (start + (duration : ℚ))

/-- Handler `cpu_load` for `GET /cpu-load` (app.py lines 173-205): read
`duration` (default 10) and `threads` (default 2), log, increment
`business_events_total{cpu_load_test}`, start `threads` workers
(`for i in range(threads)` — empty when `threads ≤ 0`), join them all,
then respond.  The response is ready once every worker has finished. -/
def cpu_load (su : Startup) (req : Request) (s : AppState) : HResult :=
  let duration := argsGet req.args "duration" 10
  let threads := argsGet req.args "threads" 2
  let ws := List.replicate threads.toNat (workerFinish req.now duration)
  { state :=
      { metrics :=
          { s.metrics with
              businessEvents := s.metrics.businessEvents ++ ["cpu_load_test"] }
        logs := s.logs ++
          [.infoLine ("Simulating CPU load with " ++ toString threads ++
            " threads for " ++ toString duration ++ "s")] }
    outcome := .response 200 (.obj
      [("message", .s ("CPU load test completed: " ++ toString threads ++
          " threads for " ++ toString duration ++ " seconds")),
       ("timestamp", .q (ws.foldl max req.now))])
    finish := ws.foldl max req.now
    workers := ws }

/-- Flask dispatch: route the request to its handler; an unmatched path
raises `NotFound`, which Flask turns into a 404 response. -/
def dispatch (su : Startup) (req : Request) (s : AppState) : HResult :=
  match req.route with
  | some .home => home su req s
  | some .health_check => health_check su req s
  | some .app_info => app_info su req s
  | some .metricsRoute => metricsEndpoint su req s
  | some .system_info => system_info su req s
  | some .crash_app => crash_app su req s
  | some .slow_endpoint => slow_endpoint su req s
  | some .cpu_load => cpu_load su req s
  | none =>
      { state := s
        outcome := .response 404 (.obj [("error", .s "Not Found")])
        finish := req.now
        workers := [] }

/-- The `after_request` hook (app.py lines 39-52): observe the elapsed
duration into `http_request_duration_seconds`, increment
`http_requests_total{method, endpoint, status}`, and log one request line. -/
def after_request (req : Request) (finish : ℚ) (status : Nat) (s : AppState) : AppState :=
  let duration := finish - req.now
  { metrics :=
      { s.metrics with
          durations := s.metrics.durations ++ [duration]
          httpRequests := s.metrics.httpRequests ++
            [(req.method, endpointName req.route, status)] }
    logs := s.logs ++ [.requestLine req.method req.path status duration] }

/-- How one request ends, as seen from outside the process. -/
inductive ReqResult
  | completed (status : Nat) (body : JVal)
  | exited (code : Int)

/-- Whether the request produced an HTTP response (rather than killing the
process). -/
def ReqResult.isCompleted : ReqResult → Bool
  | .completed _ _ => true
  | .exited _ => false

/-- One full request through the Flask lifecycle: `before_request` stores
the arrival time, the handler runs, then
  * a returned response goes through `after_request`;
  * an uncaught ordinary exception becomes a 500 response, which still
    goes through `after_request`;
  * `SystemExit` propagates: the process dies with the handler's exit code
    and `after_request` never runs. -/
def processRequest (su : Startup) (req : Request) (s : AppState) :
    AppState × ReqResult :=
  let r := dispatch su req s
  match r.outcome with
  | .response st b => (after_request req r.finish st r.state, .completed st b)
  | .exception _ =>
      (after_request req r.finish 500 r.state,
       .completed 500 (.obj [("error", .s "Internal Server Error")]))
  | .processExit c => (r.state, .exited c)

/-- Serve a sequence of requests in order; once the process has exited, no
further request is served. -/
def processAll (su : Startup) : List Request → AppState → AppState
  | [], s => s
  | req :: rest, s =>
      match (processRequest su req s).2 with
      | .completed _ _ => processAll su rest (processRequest su req s).1
      | .exited _ => (processRequest su req s).1

/-- One atomic mutation of the Prometheus registry.  prometheus_client
increments are thread-safe (each `inc`/`observe` is atomic), so a
concurrent execution of handlers is some sequence of these operations. -/
inductive MOp
  | incHttp (l : String × String × Nat)
  | observe (d : ℚ)
  | incActive
  | incBusiness (e : String)
deriving DecidableEq, Repr

/-- Effect of one atomic registry operation. -/
def applyOp : Metrics → MOp → Metrics
  | m, .incHttp l => { m with httpRequests := m.httpRequests ++ [l] }
  | m, .observe d => { m with durations := m.durations ++ [d] }
  | m, .incActive => { m with activeUsers := m.activeUsers + 1 }
  | m, .incBusiness e => { m with businessEvents := m.businessEvents ++ [e] }

/-- Effect of a sequence (one interleaving) of atomic operations. -/
def applyOps (m : Metrics) (ops : List MOp) : Metrics := ops.foldl applyOp m

/-- The registry operations one `home` request performs
(app.py lines 58-59): `ACTIVE_USERS.inc()` then
`CUSTOM_BUSINESS_METRIC.labels(event_type='page_view').inc()`. -/
def homeOps : List MOp := [.incActive, .incBusiness "page_view"]

/-- Removal of every binding of a query parameter: the same request with
that parameter absent. -/
def removeParam (k : String) (args : List (String × String)) :
    List (String × String) :=
  args.filter (fun p => p.1 != k)

/-- Ambient interpreter/host facts for concrete test requests. -/
def sys0 : SysInfo :=
  { pythonVersion := "3.12.3"
    cpuPercent := 7/2
    memTotal := 16384
    memAvailable := 8192
    memPercent := 50
    diskTotal := 1024
    diskFree := 512
    diskPercent := 50 }

/-- Empty process environment: every variable falls back to its default. -/
def env0 : EnvF := fun _ => none

/-- A process environment in which `ENVIRONMENT` has been changed to
`production` after startup. -/
def envProd : EnvF := fun k => if k = "ENVIRONMENT" then some "production" else none

/-- Startup snapshot of a process started at clock 0 with an empty
environment. -/
def su0 : Startup := Startup.ofEnv env0 0

/-- A concrete GET request at clock `t`. -/
def mkReq (route : Option Route) (path : String)
    (args : List (String × String)) (t : ℚ) : Request :=
  { method := "GET", path := path, route := route, args := args,
    now := t, env := env0, sys := sys0 }

/-- A concrete GET request whose environment has `ENVIRONMENT=production`. -/
def mkReqProd (route : Option Route) (path : String) (t : ℚ) : Request :=
  { method := "GET", path := path, route := route, args := [],
    now := t, env := envProd, sys := sys0 }

/-- Python truncation toward zero is monotone. -/
theorem pyInt_mono {a b : ℚ} (h : a ≤ b) : pyInt a ≤ pyInt b := by
  unfold pyInt
  by_cases ha : 0 ≤ a
  · rw [if_pos ha, if_pos (le_trans ha h)]
    exact Int.floor_le_floor h
  · rw [if_neg ha]
    by_cases hb : 0 ≤ b
    · rw [if_pos hb]
      have h1 : (0 : ℤ) ≤ ⌊b⌋ := Int.floor_nonneg.mpr hb
      have h2 : (0 : ℤ) ≤ ⌊-a⌋ := by
        apply Int.floor_nonneg.mpr
        have : a < 0 := lt_of_not_ge ha
        linarith
      omega
    · rw [if_neg hb]
      have : ⌊-b⌋ ≤ ⌊-a⌋ := Int.floor_le_floor (by linarith)
      omega

/-- Folding `max` over `n` copies of `b`. -/
theorem foldl_max_replicate (a b : ℚ) (n : Nat) :
    (List.replicate n b).foldl max a = if n = 0 then a else max a b := by
  induction n generalizing a with
  | zero => simp
  | succ k ih =>
      rw [List.replicate_succ, List.foldl_cons, ih]
      rcases Nat.eq_zero_or_pos k with hk | hk
      · simp [hk]
      · have : k ≠ 0 := Nat.pos_iff_ne_zero.mp hk
        simp [this, max_assoc]

/-- Unfolding of `List.lookup` on a cons cell of pairs. -/
theorem lookup_pair_cons (k' pk pv : String) (rest : List (String × String)) :
    List.lookup k' ((pk, pv) :: rest) =
      if k' == pk then some pv else List.lookup k' rest := by
  rw [List.lookup]
  cases h : k' == pk <;> simp

/-- Removing a parameter removes every binding of it. -/
theorem lookup_removeParam_self (k : String) (args : List (String × String)) :
    (removeParam k args).lookup k = none := by
  induction args with
  | nil => rfl
  | cons p rest ih =>
      obtain ⟨pk, pv⟩ := p
      by_cases hp : pk = k
      · simpa [removeParam, List.filter_cons, hp] using ih
      · simp only [removeParam, List.filter_cons] at *
        rw [if_pos (by simp [hp])]
        rw [lookup_pair_cons]
        simp [show (k == pk) = false by simp [Ne.symm hp], ih]

/-- Removing one parameter leaves every other parameter's first binding
unchanged. -/
theorem lookup_removeParam_other {k k' : String} (h : k' ≠ k)
    (args : List (String × String)) :
    (removeParam k args).lookup k' = args.lookup k' := by
  induction args with
  | nil => rfl
  | cons p rest ih =>
      obtain ⟨pk, pv⟩ := p
      by_cases hp : pk = k
      · have hk' : (k' == pk) = false := by simp [hp, h]
        rw [show removeParam k ((pk, pv) :: rest) = removeParam k rest by
              simp [removeParam, List.filter_cons, hp]]
        rw [lookup_pair_cons, if_neg (by simp [hk'])]
        exact ih
      · simp only [removeParam, List.filter_cons] at *
        rw [if_pos (by simp [hp])]
        rw [lookup_pair_cons, lookup_pair_cons]
        rcases hb : (k' == pk) with _ | _ <;> simp [hb, ih]

/-- Interleavings accumulate `active_users_total` exactly: the final value
is the initial value plus the number of atomic `inc` operations. -/
theorem applyOps_activeUsers (ops : List MOp) (m : Metrics) :
    (applyOps m ops).activeUsers = m.activeUsers + ops.count MOp.incActive := by
  induction ops generalizing m with
  | nil => simp [applyOps]
  | cons op rest ih =>
      have step : applyOps m (op :: rest) = applyOps (applyOp m op) rest := rfl
      rw [step, ih]
      cases op <;> simp [applyOp, List.count_cons] <;> omega

/-- Every atomic registry operation leaves every counter at least as large. -/
theorem applyOps_mono (ops : List MOp) (m : Metrics) :
    m.activeUsers ≤ (applyOps m ops).activeUsers ∧
    (∀ l, m.httpRequests.count l ≤ (applyOps m ops).httpRequests.count l) ∧
    (∀ e, m.businessEvents.count e ≤ (applyOps m ops).businessEvents.count e) := by
  induction ops generalizing m with
  | nil => exact ⟨le_refl _, fun l => le_refl _, fun e => le_refl _⟩
  | cons op rest ih =>
      have step : applyOps m (op :: rest) = applyOps (applyOp m op) rest := rfl
      rw [step]
      obtain ⟨h1, h2, h3⟩ := ih (applyOp m op)
      refine ⟨le_trans ?_ h1, fun l => le_trans ?_ (h2 l), fun e => le_trans ?_ (h3 e)⟩ <;>
        cases op <;> simp [applyOp, List.count_append]

/-- One hundred interleaved home-page requests contain exactly one hundred
`incActive` operations. -/
theorem count_incActive_homeOps (n : Nat) :
    ((List.replicate n homeOps).flatten).count MOp.incActive = n := by
  induction n with
  | zero => rfl
  | succ k ih =>
      rw [List.replicate_succ, List.flatten_cons, List.count_append, ih]
      have h1 : List.count MOp.incActive homeOps = 1 := rfl
      omega

/-- Any request whose route is not `/crash` completes with a response and
passes through `after_request`, which increments `http_requests_total` by
exactly one. -/
theorem processRequest_nonCrash (su : Startup) (req : Request) (s : AppState)
    (h : req.route ≠ some Route.crash_app) :
    (processRequest su req s).1.metrics.httpTotal = s.metrics.httpTotal + 1 ∧
    (processRequest su req s).2.isCompleted = true := by
  rcases hr : req.route with _ | r
  · simp [processRequest, dispatch, hr, after_request, Metrics.httpTotal,
      ReqResult.isCompleted]
  · cases r
    case crash_app => exact absurd hr h
    case slow_endpoint =>
      rcases hs : pySleep (argsGet req.args "delay" 5) with e | u <;>
        simp [processRequest, dispatch, hr, slow_endpoint, hs, after_request,
          Metrics.httpTotal, ReqResult.isCompleted]
    all_goals
      simp [processRequest, dispatch, hr, home, health_check, app_info,
        metricsEndpoint, system_info, cpu_load, after_request,
        Metrics.httpTotal, ReqResult.isCompleted]

/-- A completed request lets the next one be served. -/
theorem processAll_cons_completed (su : Startup) (req : Request)
    (rest : List Request) (s : AppState)
    (h : (processRequest su req s).2.isCompleted = true) :
    processAll su (req :: rest) s = processAll su rest (processRequest su req s).1 := by
  cases h2 : (processRequest su req s).2 with
  | completed st b => simp [processAll, h2]
  | exited c => rw [h2] at h; simp [ReqResult.isCompleted] at h

/-- C1 (counterexample): the claim fails at `GET /crash`.  The `crash_app`
handler raises `SystemExit` before any response exists, so the
`after_request` hook never runs for that request and `http_requests_total`
does not increase: the lifecycle hook does NOT wrap handlers that crash the
process. -/
theorem crash_request_not_counted :
    ¬ ((processRequest su0 (mkReq (some Route.crash_app) "/crash" [] 0)
          AppState.init).1.metrics.httpTotal
        = AppState.init.metrics.httpTotal + 1) := by
  decide

/-- C1 (amended): for every request to a route other than `/crash` —
including handlers that raise ordinary errors, which become 500 responses —
the request-lifecycle hook runs and increments `http_requests_total` by
exactly one, so after any N such requests the sum of `http_requests_total`
over all label combinations has increased by exactly N.  (`/crash` exits the
process before the hook can run, so crash requests are not counted.) -/
theorem lifecycle_hook_counts_noncrash_requests (su : Startup)
    (reqs : List Request) (s : AppState)
    (h : ∀ r ∈ reqs, r.route ≠ some Route.crash_app) :
    (processAll su reqs s).metrics.httpTotal = s.metrics.httpTotal + reqs.length := by
  induction reqs generalizing s with
  | nil => simp [processAll]
  | cons req rest ih =>
      have hreq := h req (List.mem_cons_self _ _)
      obtain ⟨h1, h2⟩ := processRequest_nonCrash su req s hreq
      rw [processAll_cons_completed su req rest s h2,
        ih (processRequest su req s).1 (fun r hr => h r (List.mem_cons_of_mem _ hr)), h1,
        List.length_cons]
      omega

/-- C1 (witness): two concrete requests — a home-page view and a request to
`/slow` whose negative delay makes the handler raise — both pass through the
hook: the total request count rises by exactly 2. -/
theorem lifecycle_hook_counts_noncrash_requests_witness :
    (processAll su0
        [mkReq (some Route.home) "/" [] 1,
         mkReq (some Route.slow_endpoint) "/slow" [("delay", "-3")] 2]
        AppState.init).metrics.httpTotal
      = AppState.init.metrics.httpTotal + 2 := by
  apply lifecycle_hook_counts_noncrash_requests
  intro r hr
  simp only [List.mem_cons, List.not_mem_nil, or_false] at hr
  rcases hr with h | h <;> (rw [h]; decide)

/-- C2: every request to `GET /crash` logs an error line, increments
`business_events_total{event_type=crash_simulation}` by exactly one, and
terminates the process with exit status 1; no HTTP response is produced
(the result is `exited`, never `completed`, so the connection drops). -/
theorem crash_logs_counts_and_exits_one (su : Startup) (req : Request)
    (s : AppState) (h : req.route = some Route.crash_app) :
    (processRequest su req s).2 = ReqResult.exited 1 ∧
    (processRequest su req s).1.metrics.businessCount "crash_simulation"
      = s.metrics.businessCount "crash_simulation" + 1 ∧
    (processRequest su req s).1.logs
      = s.logs ++ [LogLine.errorLine "Application crash simulation triggered!"] ∧
    (∀ st b, (processRequest su req s).2 ≠ ReqResult.completed st b) := by
  refine ⟨?_, ?_, ?_, ?_⟩ <;>
    simp [processRequest, dispatch, h, crash_app, Metrics.businessCount,
      List.count_append]

/-- C2 (witness): the crash contract at a concrete `GET /crash` request on a
fresh process. -/
theorem crash_logs_counts_and_exits_one_witness :
    (processRequest su0 (mkReq (some Route.crash_app) "/crash" [] 0)
        AppState.init).2 = ReqResult.exited 1 ∧
    (processRequest su0 (mkReq (some Route.crash_app) "/crash" [] 0)
        AppState.init).1.metrics.businessCount "crash_simulation"
      = AppState.init.metrics.businessCount "crash_simulation" + 1 ∧
    (processRequest su0 (mkReq (some Route.crash_app) "/crash" [] 0)
        AppState.init).1.logs
      = AppState.init.logs ++
          [LogLine.errorLine "Application crash simulation triggered!"] ∧
    (∀ st b, (processRequest su0 (mkReq (some Route.crash_app) "/crash" [] 0)
        AppState.init).2 ≠ ReqResult.completed st b) :=
  crash_logs_counts_and_exits_one su0
    (mkReq (some Route.crash_app) "/crash" [] 0) AppState.init rfl

/-- C3 (counterexample): the environment name is NOT part of the startup
snapshot.  For a process started with an empty environment (so the startup
value of `ENVIRONMENT` is the default `development`), a later request whose
process environment carries `ENVIRONMENT=production` makes both `GET /` and
`GET /info` render `production`: the handlers call `os.getenv` at request
time (app.py lines 102, 123), so a later change to `ENVIRONMENT` changes
what is rendered. -/
theorem environment_reread_per_request :
    getenv env0 "ENVIRONMENT" "development" = "development" ∧
    (homeView (Startup.ofEnv env0 0) (mkReqProd (some Route.home) "/" 5)).environment
      = "production" ∧
    List.lookup "environment"
        (infoBody (Startup.ofEnv env0 0) (mkReqProd (some Route.app_info) "/info" 5))
      = some (JVal.s "production") ∧
    ("production" : String) ≠ "development" := by
  refine ⟨rfl, rfl, rfl, by decide⟩

/-- C3 (amended): the application name and version are an immutable snapshot
read from the environment once at process start, and every request renders
exactly those snapshot values; the environment name, however, is re-read
from the `ENVIRONMENT` variable on each request to `/` and `/info`, so those
endpoints render the value current at request time rather than the startup
value. -/
theorem name_version_snapshot_env_reread (su : Startup) (req : Request) :
    (homeView su req).app_name = su.appName ∧
    (homeView su req).version = su.appVersion ∧
    (homeView su req).environment = getenv req.env "ENVIRONMENT" "development" ∧
    List.lookup "name" (infoBody su req) = some (JVal.s su.appName) ∧
    List.lookup "version" (infoBody su req) = some (JVal.s su.appVersion) ∧
    List.lookup "environment" (infoBody su req)
      = some (JVal.s (getenv req.env "ENVIRONMENT" "development")) := by
  refine ⟨rfl, rfl, rfl, ?_, ?_, ?_⟩ <;> rfl

/-- C4 (counterexample): the fourth key of the `/info` body is
`python_version`, not `runtime_version`: the key set produced by `app_info`
(app.py lines 120-127) does not contain `runtime_version`. -/
theorem info_keys_use_python_version :
    jsonKeys (infoBody su0 (mkReq (some Route.app_info) "/info" [] 0))
      = ["name", "version", "environment", "python_version", "start_time",
         "uptime_seconds"] ∧
    "runtime_version" ∉
      jsonKeys (infoBody su0 (mkReq (some Route.app_info) "/info" [] 0)) := by
  constructor
  · rfl
  · decide

/-- C4 (amended): every request to `GET /info` returns status 200 with a
JSON object whose keys are exactly `name`, `version`, `environment`,
`python_version`, `start_time` and `uptime_seconds`. -/
theorem info_returns_200_with_fixed_keys (su : Startup) (req : Request)
    (s : AppState) (h : req.route = some Route.app_info) :
    (processRequest su req s).2
      = ReqResult.completed 200 (JVal.obj (infoBody su req)) ∧
    jsonKeys (infoBody su req)
      = ["name", "version", "environment", "python_version", "start_time",
         "uptime_seconds"] := by
  constructor
  · simp [processRequest, dispatch, h, app_info]
  · rfl

/-- C4 (witness): the `/info` contract at a concrete request. -/
theorem info_returns_200_with_fixed_keys_witness :
    (processRequest su0 (mkReq (some Route.app_info) "/info" [] 3)
        AppState.init).2
      = ReqResult.completed 200
          (JVal.obj (infoBody su0 (mkReq (some Route.app_info) "/info" [] 3))) ∧
    jsonKeys (infoBody su0 (mkReq (some Route.app_info) "/info" [] 3))
      = ["name", "version", "environment", "python_version", "start_time",
         "uptime_seconds"] :=
  info_returns_200_with_fixed_keys su0
    (mkReq (some Route.app_info) "/info" [] 3) AppState.init rfl

/-- C5: if the `delay` (resp. `duration`, `threads`) query parameter does
not parse as an integer, the `/slow` (resp. `/cpu-load`) handler behaves
identically — same state change, same outcome, same timing — to the same
request with that parameter absent: the default is used and no error is
surfaced. -/
theorem malformed_query_params_default (su : Startup) (req : Request)
    (s : AppState) (v : String) (hv : parsePyInt v = none) :
    (req.args.lookup "delay" = some v →
      slow_endpoint su req s =
        slow_endpoint su { req with args := removeParam "delay" req.args } s) ∧
    (req.args.lookup "duration" = some v →
      cpu_load su req s =
        cpu_load su { req with args := removeParam "duration" req.args } s) ∧
    (req.args.lookup "threads" = some v →
      cpu_load su req s =
        cpu_load su { req with args := removeParam "threads" req.args } s) := by
  refine ⟨?_, ?_, ?_⟩
  · intro hd
    have h1 : argsGet req.args "delay" 5 = 5 := by simp [argsGet, hd, hv]
    have h2 : argsGet (removeParam "delay" req.args) "delay" 5 = 5 := by
      simp [argsGet, lookup_removeParam_self]
    simp [slow_endpoint, h1, h2]
  · intro hd
    have h1 : argsGet req.args "duration" 10 = 10 := by simp [argsGet, hd, hv]
    have h2 : argsGet (removeParam "duration" req.args) "duration" 10 = 10 := by
      simp [argsGet, lookup_removeParam_self]
    have h3 : argsGet (removeParam "duration" req.args) "threads" 2
        = argsGet req.args "threads" 2 := by
      rw [argsGet, argsGet, lookup_removeParam_other (by decide)]
    simp [cpu_load, h1, h2, h3]
  · intro hd
    have h1 : argsGet req.args "threads" 2 = 2 := by simp [argsGet, hd, hv]
    have h2 : argsGet (removeParam "threads" req.args) "threads" 2 = 2 := by
      simp [argsGet, lookup_removeParam_self]
    have h3 : argsGet (removeParam "threads" req.args) "duration" 10
        = argsGet req.args "duration" 10 := by
      rw [argsGet, argsGet, lookup_removeParam_other (by decide)]
    simp [cpu_load, h1, h2, h3]

/-- C5 (witness): `GET /slow?delay=abc` behaves identically to `GET /slow`. -/
theorem malformed_query_params_default_witness :
    parsePyInt "abc" = none ∧
    slow_endpoint su0
        (mkReq (some Route.slow_endpoint) "/slow" [("delay", "abc")] 0)
        AppState.init
      = slow_endpoint su0
          { mkReq (some Route.slow_endpoint) "/slow" [("delay", "abc")] 0 with
              args := removeParam "delay"
                (mkReq (some Route.slow_endpoint) "/slow" [("delay", "abc")] 0).args }
          AppState.init :=
  ⟨by decide,
   (malformed_query_params_default su0
      (mkReq (some Route.slow_endpoint) "/slow" [("delay", "abc")] 0)
      AppState.init "abc" (by decide)).1 rfl⟩

/-- C6: for positive `duration` and `threads`, `/cpu-load` increments
`business_events_total{cpu_load_test}` exactly once, spawns exactly
`threads` workers, each of which finishes no later than the handler, the
handler finishes no earlier than `duration` seconds after it starts (all
workers are joined first), and only then returns 200 with a JSON object of
keys `message` and `timestamp`. -/
theorem cpu_load_contract (su : Startup) (req : Request) (s : AppState)
    (hd : 0 < argsGet req.args "duration" 10)
    (ht : 0 < argsGet req.args "threads" 2) :
    (cpu_load su req s).workers.length = (argsGet req.args "threads" 2).toNat ∧
    0 < (cpu_load su req s).workers.length ∧
    (cpu_load su req s).state.metrics.businessCount "cpu_load_test"
      = s.metrics.businessCount "cpu_load_test" + 1 ∧
    (∀ w ∈ (cpu_load su req s).workers, w ≤ (cpu_load su req s).finish) ∧
    req.now + (argsGet req.args "duration" 10 : ℚ) ≤ (cpu_load su req s).finish ∧
    (∃ msg, (cpu_load su req s).outcome
        = Outcome.response 200 (JVal.obj
            [("message", JVal.s msg),
             ("timestamp", JVal.q (cpu_load su req s).finish)])) := by
  have hdq : (0 : ℚ) < ((argsGet req.args "duration" 10 : Int) : ℚ) := by
    exact_mod_cast hd
  have hw : workerFinish req.now (argsGet req.args "duration" 10)
      = req.now + ((argsGet req.args "duration" 10 : Int) : ℚ) := by
    unfold workerFinish
    rw [max_eq_right (by linarith)]
  have htn : (argsGet req.args "threads" 2).toNat ≠ 0 := by omega
  have hfin : (cpu_load su req s).finish
      = req.now + ((argsGet req.args "duration" 10 : Int) : ℚ) := by
    simp only [cpu_load]
    rw [hw, foldl_max_replicate, if_neg htn, max_eq_right (by linarith)]
  refine ⟨by simp [cpu_load], ?_, ?_, ?_, ?_, ?_⟩
  · simp only [cpu_load, List.length_replicate]
    omega
  · simp [cpu_load, Metrics.businessCount, List.count_append]
  · intro w hwmem
    rw [hfin]
    simp only [cpu_load, List.mem_replicate] at hwmem
    rw [hwmem.2, hw]
  · rw [hfin]
  · exact ⟨"CPU load test completed: " ++
      toString (argsGet req.args "threads" 2) ++ " threads for " ++
      toString (argsGet req.args "duration" 10) ++ " seconds",
      by simp [cpu_load]⟩

/-- C6 (witness): `GET /cpu-load?duration=1&threads=3` spawns 3 workers and
the response is not ready until at least 1 second after the request, with
every worker joined first. -/
theorem cpu_load_contract_witness :
    (0 : Int) < argsGet [("duration", "1"), ("threads", "3")] "duration" 10 ∧
    ((cpu_load su0
        (mkReq (some Route.cpu_load) "/cpu-load"
          [("duration", "1"), ("threads", "3")] 0)
        AppState.init).workers.length
      = (argsGet (mkReq (some Route.cpu_load) "/cpu-load"
            [("duration", "1"), ("threads", "3")] 0).args "threads" 2).toNat ∧
    0 < (cpu_load su0
        (mkReq (some Route.cpu_load) "/cpu-load"
          [("duration", "1"), ("threads", "3")] 0)
        AppState.init).workers.length ∧
    (cpu_load su0
        (mkReq (some Route.cpu_load) "/cpu-load"
          [("duration", "1"), ("threads", "3")] 0)
        AppState.init).state.metrics.businessCount "cpu_load_test"
      = AppState.init.metrics.businessCount "cpu_load_test" + 1 ∧
    (∀ w ∈ (cpu_load su0
        (mkReq (some Route.cpu_load) "/cpu-load"
          [("duration", "1"), ("threads", "3")] 0)
        AppState.init).workers,
      w ≤ (cpu_load su0
        (mkReq (some Route.cpu_load) "/cpu-load"
          [("duration", "1"), ("threads", "3")] 0)
        AppState.init).finish) ∧
    (mkReq (some Route.cpu_load) "/cpu-load"
        [("duration", "1"), ("threads", "3")] 0).now +
      ((argsGet (mkReq (some Route.cpu_load) "/cpu-load"
          [("duration", "1"), ("threads", "3")] 0).args "duration" 10 : Int) : ℚ)
      ≤ (cpu_load su0
        (mkReq (some Route.cpu_load) "/cpu-load"
          [("duration", "1"), ("threads", "3")] 0)
        AppState.init).finish ∧
    (∃ msg, (cpu_load su0
        (mkReq (some Route.cpu_load) "/cpu-load"
          [("duration", "1"), ("threads", "3")] 0)
        AppState.init).outcome
        = Outcome.response 200 (JVal.obj
            [("message", JVal.s msg),
             ("timestamp", JVal.q (cpu_load su0
               (mkReq (some Route.cpu_load) "/cpu-load"
                 [("duration", "1"), ("threads", "3")] 0)
               AppState.init).finish)]))) :=
  ⟨by decide,
   cpu_load_contract su0
     (mkReq (some Route.cpu_load) "/cpu-load"
       [("duration", "1"), ("threads", "3")] 0)
     AppState.init (by decide) (by decide)⟩

/-- C7: `uptime_seconds` as reported by `/health` and `/info` is
monotonically non-decreasing across successive requests within one process
lifetime: for any two requests with the later clock at least the earlier,
the later reported value is at least the earlier.  Both bodies report
exactly `uptimeSeconds`, the embedding of
`int(time.time() - app.start_time)`. -/
theorem uptime_monotone (su : Startup) (r1 r2 : Request) (h : r1.now ≤ r2.now) :
    uptimeSeconds su r1.now ≤ uptimeSeconds su r2.now ∧
    List.lookup "uptime_seconds" (healthBody su r1)
      = some (JVal.i (uptimeSeconds su r1.now)) ∧
    List.lookup "uptime_seconds" (infoBody su r1)
      = some (JVal.i (uptimeSeconds su r1.now)) := by
  refine ⟨pyInt_mono (by linarith), ?_, ?_⟩ <;> rfl

/-- C7 (witness): uptime at clocks 1 and 5 of a process started at clock 0. -/
theorem uptime_monotone_witness :
    uptimeSeconds su0 (mkReq (some Route.health_check) "/health" [] 1).now
      ≤ uptimeSeconds su0 (mkReq (some Route.health_check) "/health" [] 5).now ∧
    List.lookup "uptime_seconds"
        (healthBody su0 (mkReq (some Route.health_check) "/health" [] 1))
      = some (JVal.i (uptimeSeconds su0
          (mkReq (some Route.health_check) "/health" [] 1).now)) ∧
    List.lookup "uptime_seconds"
        (infoBody su0 (mkReq (some Route.health_check) "/health" [] 1))
      = some (JVal.i (uptimeSeconds su0
          (mkReq (some Route.health_check) "/health" [] 1).now)) :=
  uptime_monotone su0
    (mkReq (some Route.health_check) "/health" [] 1)
    (mkReq (some Route.health_check) "/health" [] 5) (by decide)

/-- The metrics side effect of one `home` request is exactly the two atomic
operations of `homeOps`, in program order. -/
theorem home_metrics_eq_applyOps (su : Startup) (req : Request) (s : AppState) :
    (home su req s).state.metrics = applyOps s.metrics homeOps := rfl

/-- C8: counters are monotonically non-decreasing along any interleaving of
atomic registry operations, and no concurrent increment is lost: each `home`
request contributes exactly the atomic operations `homeOps`, and any
interleaving of the operations of 100 concurrent `GET /` requests leaves
`active_users_total` larger by exactly 100. -/
theorem counters_monotone_no_lost_updates (m : Metrics) (ops : List MOp) :
    (∀ su req s, (home su req s).state.metrics = applyOps s.metrics homeOps) ∧
    m.activeUsers ≤ (applyOps m ops).activeUsers ∧
    (∀ l, m.httpRequests.count l ≤ (applyOps m ops).httpRequests.count l) ∧
    (∀ e, m.businessCount e ≤ (applyOps m ops).businessCount e) ∧
    (ops.Perm (List.replicate 100 homeOps).flatten →
      (applyOps m ops).activeUsers = m.activeUsers + 100) := by
  obtain ⟨h1, h2, h3⟩ := applyOps_mono ops m
  refine ⟨fun su req s => home_metrics_eq_applyOps su req s, h1, h2,
    fun e => h3 e, fun hp => ?_⟩
  rw [applyOps_activeUsers, hp.count_eq MOp.incActive, count_incActive_homeOps]

/-- C8 (witness): the sequentially consistent interleaving of 100 home-page
requests increments `active_users_total` from 0 to exactly 100. -/
theorem counters_monotone_no_lost_updates_witness :
    (applyOps Metrics.init ((List.replicate 100 homeOps).flatten)).activeUsers
      = Metrics.init.activeUsers + 100 :=
  (counters_monotone_no_lost_updates Metrics.init
      ((List.replicate 100 homeOps).flatten)).2.2.2.2 (List.Perm.refl _)

/-- C9: a `GET /slow` request whose `delay` parses to a negative integer
first increments `business_events_total{slow_request}` and then fails —
`time.sleep` rejects the negative argument — so the request completes with a
500 error response instead of the 200 JSON body, and the counter increment
is not rolled back. -/
theorem negative_delay_errors_counter_kept (su : Startup) (req : Request)
    (s : AppState) (v : String) (d : Int)
    (h1 : req.route = some Route.slow_endpoint)
    (h2 : req.args.lookup "delay" = some v)
    (h3 : parsePyInt v = some d) (h4 : d < 0) :
    (processRequest su req s).2
      = ReqResult.completed 500
          (JVal.obj [("error", JVal.s "Internal Server Error")]) ∧
    (processRequest su req s).1.metrics.businessCount "slow_request"
      = s.metrics.businessCount "slow_request" + 1 := by
  have hget : argsGet req.args "delay" 5 = d := by simp [argsGet, h2, h3]
  have hs : pySleep d = Except.error "sleep length must be non-negative" := by
    simp [pySleep, h4]
  constructor <;>
    simp [processRequest, dispatch, h1, slow_endpoint, hget, hs, after_request,
      Metrics.businessCount, List.count_append]

/-- C9 (witness): `GET /slow?delay=-3` yields a 500 and a counted
`slow_request` event. -/
theorem negative_delay_errors_counter_kept_witness :
    (processRequest su0
        (mkReq (some Route.slow_endpoint) "/slow" [("delay", "-3")] 0)
        AppState.init).2
      = ReqResult.completed 500
          (JVal.obj [("error", JVal.s "Internal Server Error")]) ∧
    (processRequest su0
        (mkReq (some Route.slow_endpoint) "/slow" [("delay", "-3")] 0)
        AppState.init).1.metrics.businessCount "slow_request"
      = AppState.init.metrics.businessCount "slow_request" + 1 :=
  negative_delay_errors_counter_kept su0
    (mkReq (some Route.slow_endpoint) "/slow" [("delay", "-3")] 0)
    AppState.init "-3" (-3) rfl rfl (by decide) (by decide)

/-- C10: a `GET /cpu-load` request whose `threads` parses to an integer
at most 0 spawns zero workers (`range(threads)` is empty) and responds
immediately — the handler finishes at its start instant, without waiting for
the requested duration — with status 200 and the completion message, while
`business_events_total{cpu_load_test}` is still incremented exactly once. -/
theorem cpu_load_nonpositive_threads (su : Startup) (req : Request)
    (s : AppState) (h : argsGet req.args "threads" 2 ≤ 0) :
    (cpu_load su req s).workers = [] ∧
    (cpu_load su req s).finish = req.now ∧
    (cpu_load su req s).state.metrics.businessCount "cpu_load_test"
      = s.metrics.businessCount "cpu_load_test" + 1 ∧
    (∃ msg, (cpu_load su req s).outcome
        = Outcome.response 200 (JVal.obj
            [("message", JVal.s msg), ("timestamp", JVal.q req.now)])) := by
  have h0 : (argsGet req.args "threads" 2).toNat = 0 := Int.toNat_eq_zero.mpr h
  refine ⟨by simp [cpu_load, h0], by simp [cpu_load, h0],
    by simp [cpu_load, Metrics.businessCount, List.count_append], ?_⟩
  exact ⟨"CPU load test completed: " ++
    toString (argsGet req.args "threads" 2) ++ " threads for " ++
    toString (argsGet req.args "duration" 10) ++ " seconds",
    by simp [cpu_load, h0]⟩

/-- C10 (witness): `GET /cpu-load?threads=0&duration=10` spawns no worker
and responds at its start instant. -/
theorem cpu_load_nonpositive_threads_witness :
    (cpu_load su0
        (mkReq (some Route.cpu_load) "/cpu-load"
          [("threads", "0"), ("duration", "10")] 4)
        AppState.init).workers = [] ∧
    (cpu_load su0
        (mkReq (some Route.cpu_load) "/cpu-load"
          [("threads", "0"), ("duration", "10")] 4)
        AppState.init).finish
      = (mkReq (some Route.cpu_load) "/cpu-load"
          [("threads", "0"), ("duration", "10")] 4).now ∧
    (cpu_load su0
        (mkReq (some Route.cpu_load) "/cpu-load"
          [("threads", "0"), ("duration", "10")] 4)
        AppState.init).state.metrics.businessCount "cpu_load_test"
      = AppState.init.metrics.businessCount "cpu_load_test" + 1 ∧
    (∃ msg, (cpu_load su0
        (mkReq (some Route.cpu_load) "/cpu-load"
          [("threads", "0"), ("duration", "10")] 4)
        AppState.init).outcome
        = Outcome.response 200 (JVal.obj
            [("message", JVal.s msg),
             ("timestamp", JVal.q (mkReq (some Route.cpu_load) "/cpu-load"
               [("threads", "0"), ("duration", "10")] 4).now)])) :=
  cpu_load_nonpositive_threads su0
    (mkReq (some Route.cpu_load) "/cpu-load"
      [("threads", "0"), ("duration", "10")] 4)
    AppState.init (by decide)

end WebApp
